import Mathlib

/-!
Shallow embedding of the `raged` enrichment worker (src/worker/src), used to
check the natural-language specification against the code.

Modules embedded:
* `config.py`   — constants `MAX_RETRIES`, queue names.
* `tier2.py`    — `process_text_nlp`, `detect_language` (the spaCy pipeline and
  the langdetect call are oracles: arbitrary functions passed as parameters).
* `pipeline.py` — `process_task`, `run_tier2_extraction`,
  `run_document_level_extraction`, `aggregate_chunks`,
  `update_enrichment_status`.  External effects (Qdrant writes, adapter calls,
  Neo4j writes) are modelled as parameters carrying their outcomes, and the
  writes the code issues are recorded in an event trace.
* `main.py`     — `process_task_with_retry` (effects on the Redis queues) and
  the set of tasks spawned by `worker_loop`.
* `db.py`       — `fail_task` and `recover_stale_leases` over a list of queue
  rows (the SQL `UPDATE ... WHERE` is a map over rows).
* `adapters/ollama.py` — `_generate_structured` retry loop and
  `_empty_response_for_schema` (the HTTP/JSON outcome of each loop iteration
  is an oracle `Nat → GenAttempt`).
-/

namespace Enrichment

/-! ## config.py -/

/-- `MAX_RETRIES = 3` (config.py line 19). -/
def MAX_RETRIES : Nat := 3

/-- `QUEUE_NAME = "enrichment:pending"` (config.py line 20). -/
def QUEUE_NAME : String := "enrichment:pending"

/-- `DEAD_LETTER_QUEUE = "enrichment:dead-letter"` (config.py line 21). -/
def DEAD_LETTER_QUEUE : String := "enrichment:dead-letter"

/-! ## tier2.py -/

/-- Characters stripped by Python `str.strip()` (ASCII whitespace). -/
def isPySpace (c : Char) : Bool :=
  c = ' ' || c = '\t' || c = '\n' || c = '\r' || c = Char.ofNat 11 || c = Char.ofNat 12

/-- Python `s.strip()`: drop leading and trailing whitespace. -/
def pyStrip (s : String) : String :=
  String.mk (((s.toList.dropWhile (fun c => isPySpace c)).reverse.dropWhile
    (fun c => isPySpace c)).reverse)

/-- Python `text.replace("\n", " ")` (single-character pattern, so a char map). -/
def replaceNewlines (s : String) : String :=
  String.mk (s.toList.map (fun c => if c = '\n' then ' ' else c))

/-- One spaCy named entity `{text, label}`. -/
structure NlpEntity where
  text : String
  label : String
deriving DecidableEq, Repr

/-- Result of `process_text_nlp`: the `{"entities": ..., "keywords": ...}` dict. -/
structure NlpResult where
  entities : List NlpEntity
  keywords : List String
deriving DecidableEq, Repr

/-- `tier2.process_text_nlp`.  The spaCy pipeline pass is the oracle `nlp`;
the returned `Bool` records whether the pipeline was invoked.
Code: `if not text or not text.strip(): return {"entities": [], "keywords": []}`,
otherwise one pipeline pass producing entities and top-10 keywords. -/
def process_text_nlp (nlp : String → NlpResult) (text : String) : NlpResult × Bool :=
  if text = "" || pyStrip text = "" then ({ entities := [], keywords := [] }, false)
  else (nlp text, true)

/-- `tier2.detect_language`.  The langdetect `detect` call is the oracle `det`
(which may fail); the returned `Bool` records whether `det` was invoked.
Code: normalize by replacing newlines with spaces and stripping; empty
normalized text returns `"unknown"` without detection; a raised detection
error is caught and returns `"unknown"`. -/
def detect_language (det : String → Except String String) (text : String) : String × Bool :=
  let normalized := pyStrip (replaceNewlines text)
  if normalized = "" then ("unknown", false)
  else
    match det normalized with
    | Except.ok lang => (lang, true)
    | Except.error _ => ("unknown", true)

/-! ## pipeline.py -/

/-- The tier-2 dict `{entities, keywords, language}` built by
`run_tier2_extraction`. -/
structure Tier2Result where
  entities : List NlpEntity
  keywords : List String
  language : String
deriving DecidableEq, Repr

/-- `pipeline.run_tier2_extraction`.  The two concurrent subtasks
(`process_text_nlp`, `detect_language`) are run with
`asyncio.gather(..., return_exceptions=True)`; each outcome is therefore a
value or an exception, modelled as `Except`.  A failed NLP pass yields
`entities = []` and `keywords = []`; a failed language detection yields
`language = "unknown"`; the other subtask's result is kept. -/
def run_tier2_extraction (nlpOut : Except String NlpResult)
    (langOut : Except String String) : Tier2Result :=
  { entities :=
      match nlpOut with
      | Except.ok r => r.entities
      | Except.error _ => []
    keywords :=
      match nlpOut with
      | Except.ok r => r.keywords
      | Except.error _ => []
    language :=
      match langOut with
      | Except.ok lang => lang
      | Except.error _ => "unknown" }

/-- A point returned by `qdrant.retrieve`: its id and the `"text"` field of its
payload (a point with no text payload carries `text = ""`, matching
`payload.get("text", "")`). -/
structure Point where
  id : String
  text : String
deriving DecidableEq, Repr

/-- `f"{base_id}:{i}"` — the chunk id used both for retrieval and lookup. -/
def chunkId (baseId : String) (i : Nat) : String :=
  baseId ++ ":" ++ toString i

/-- One step of building `id_to_text`: Python
`if text and point_id: id_to_text[point_id] = text` — insert only points with
non-empty text and non-empty id; a dict assignment overwrites. -/
def idToTextInsert (m : String → Option String) (p : Point) : String → Option String :=
  if p.text ≠ "" ∧ p.id ≠ "" then
    fun k => if k = p.id then some p.text else m k
  else m

/-- The `id_to_text` dict built from the retrieved points (insertion left to
right, later points overwrite). -/
def buildIdToText (points : List Point) : String → Option String :=
  points.foldl idToTextInsert (fun _ => none)

/-- The ordered list of texts collected by `aggregate_chunks`:
`for i in range(total_chunks): text = id_to_text.get(chunk_id); if text: texts.append(text)`. -/
def aggregate_texts (baseId : String) (points : List Point) (total : Nat) : List String :=
  (List.range total).filterMap (fun i =>
    match buildIdToText points (chunkId baseId i) with
    | some t => if t ≠ "" then some t else none
    | none => none)

/-- `pipeline.aggregate_chunks`.  The `qdrant.retrieve` call's outcome is the
parameter `retrieveOut`; a raised retrieval error is caught and the function
returns `""` (`except Exception: ...; return ""`).  On success the chunk texts
are joined with `"\n\n"`. -/
def aggregate_chunks (baseId : String) (retrieveOut : Except String (List Point))
    (total : Nat) : String :=
  match retrieveOut with
  | Except.error _ => ""
  | Except.ok points => String.intercalate "\n\n" (aggregate_texts baseId points total)

/-- The spec's reading of `fullText` (§4.5): the text retrieved for chunk `i`,
taking the last retrieved point whose id matches and whose text is non-empty
(a dict overwrite keeps the last occurrence). -/
def retrievedTextOf (points : List Point) (key : String) : Option String :=
  match points with
  | [] => none
  | p :: ps =>
    match retrievedTextOf ps key with
    | some t => some t
    | none => if p.id = key ∧ p.text ≠ "" then some p.text else none

/-- Definition following the spec's words (§4.5, claim C8): `fullText` is the
concatenation of all retrieved chunk texts ordered by ascending `chunkIndex`
and joined by `"\n\n"`, empty or missing chunks skipped without shifting the
order of the rest. -/
def fullTextSpec (baseId : String) (points : List Point) (total : Nat) : String :=
  String.intercalate "\n\n"
    ((List.range total).filterMap (fun i => retrievedTextOf points (chunkId baseId i)))

/-- Tier-3 metadata object returned by the adapter (a JSON object; its contents
are irrelevant to the pipeline control flow). -/
abbrev Tier3Meta : Type := List (String × String)

/-- One entity from `adapter.extract_entities` (`{name, type, description}`). -/
structure T3Entity where
  name : String
  type : String
  description : String
deriving DecidableEq, Repr

/-- One relationship from `adapter.extract_entities`
(`{source, target, type, description}`). -/
structure T3Relationship where
  source : String
  target : String
  type : String
  description : String
deriving DecidableEq, Repr

/-- Result of `adapter.extract_entities`. -/
structure EntityResult where
  entities : List T3Entity
  relationships : List T3Relationship
deriving DecidableEq, Repr

/-- `pipeline.write_to_neo4j`: the whole body is wrapped in
`try ... except Exception: logger.warning(...)` — graph-write failures are
swallowed and the function always returns normally. -/
def write_to_neo4j (graphOut : Except String Unit) : Except String Unit :=
  match graphOut with
  | Except.ok _ => Except.ok ()
  | Except.error _ => Except.ok ()

/-- `pipeline.run_document_level_extraction`.  Outcomes of the external calls
are parameters: `retrieveOut` for `qdrant.retrieve` inside `aggregate_chunks`,
`metaOut` for `adapter.extract_metadata` on the aggregated full text,
`entOut` for `adapter.extract_entities`, `graphOut` for the Neo4j writes.
Schema resolution (`get_schema_for_doctype`) is total, the per-chunk
`update_payload` gather uses `return_exceptions=True` (failures logged, not
raised), and `write_to_neo4j` swallows its own errors; so the only raisers in
the `try` block are the two adapter calls, whose errors are re-raised by the
`except` clause. -/
def run_document_level_extraction (baseId : String) (docType : String) (total : Nat)
    (retrieveOut : Except String (List Point))
    (metaOut : String → Except String Tier3Meta)
    (entOut : String → Except String EntityResult)
    (graphOut : Except String Unit) : Except String Unit :=
  let full_text := aggregate_chunks baseId retrieveOut total
  match metaOut full_text with
  | Except.error e => Except.error e
  | Except.ok _tier3_meta =>
    match entOut full_text with
    | Except.error e => Except.error e
    | Except.ok _entity_result => write_to_neo4j graphOut

/-- `pipeline.update_enrichment_status`: the Qdrant `set_payload` call is
wrapped in `try ... except Exception: logger.error(...)` — a failed status
write is swallowed and the function returns normally. -/
def update_enrichment_status (writeOut : Except String Unit) : Except String Unit :=
  match writeOut with
  | Except.ok _ => Except.ok ()
  | Except.error _ => Except.ok ()

/-- Externally visible calls issued by `process_task`, in order. -/
inductive Event where
  | statusWrite (status : String)
  | tier2Write (tier2 : Tier2Result)
  | tier3Run
deriving DecidableEq, Repr

/-- The task dict consumed by `process_task` (Python ints are `Int`). -/
structure Task where
  baseId : String
  collection : String
  docType : String
  text : String
  chunkIndex : Int
  totalChunks : Int
  qdrantId : String
  source : String
deriving DecidableEq, Repr

/-- The `try` block of `pipeline.process_task`: write status `"processing"`,
run tier-2 and write its result, run tier-3 iff
`chunk_index == total_chunks - 1` (its error, if any, escapes the block), then
write status `"enriched"`.  `range(total_chunks)` on a Python negative is
empty, hence `totalChunks.toNat`. -/
def process_task_try (task : Task) (nlpOut : Except String NlpResult)
    (langOut : Except String String)
    (retrieveOut : Except String (List Point))
    (metaOut : String → Except String Tier3Meta)
    (entOut : String → Except String EntityResult)
    (graphOut : Except String Unit) : List Event × Except String Unit :=
  let tier2 := run_tier2_extraction nlpOut langOut
  let evs := [Event.statusWrite "processing", Event.tier2Write tier2]
  if task.chunkIndex = task.totalChunks - 1 then
    match run_document_level_extraction task.baseId task.docType task.totalChunks.toNat
        retrieveOut metaOut entOut graphOut with
    | Except.ok _ => (evs ++ [Event.tier3Run, Event.statusWrite "enriched"], Except.ok ())
    | Except.error e => (evs ++ [Event.tier3Run], Except.error e)
  else
    (evs ++ [Event.statusWrite "enriched"], Except.ok ())

/-- `pipeline.process_task`: the `try` block, and on any exception the
`except` clause writes status `"failed"` and re-raises. -/
def process_task (task : Task) (nlpOut : Except String NlpResult)
    (langOut : Except String String)
    (retrieveOut : Except String (List Point))
    (metaOut : String → Except String Tier3Meta)
    (entOut : String → Except String EntityResult)
    (graphOut : Except String Unit) : List Event × Except String Unit :=
  match process_task_try task nlpOut langOut retrieveOut metaOut entOut graphOut with
  | (evs, Except.ok _) => (evs, Except.ok ())
  | (evs, Except.error e) => (evs ++ [Event.statusWrite "failed"], Except.error e)

/-- The `enrichmentStatus` values written during a trace, in order. -/
def statusWrites (evs : List Event) : List String :=
  evs.filterMap (fun e =>
    match e with
    | Event.statusWrite s => some s
    | _ => none)

/-! ## main.py -/

/-- The task dict as it lives on the Redis queue. -/
structure RTask where
  taskId : String
  attempt : Nat
  retryAfter : Nat
deriving DecidableEq, Repr

/-- External effects of `process_task_with_retry`: pushes to the Redis queues,
and (for comparison with §4.1 of the spec) a call to the control API's
`fail` endpoint, which `api_client.fail_task` would issue — `main.py` never
performs it. -/
inductive SchedEffect where
  | rpush (queue : String) (task : RTask)
  | lpush (queue : String) (task : RTask)
  | apiFail (taskId : String) (errorMessage : String)
deriving DecidableEq, Repr

/-- Whether an effect is a `fail(taskId, errorMessage)` control-API call. -/
def SchedEffect.isApiFail : SchedEffect → Bool
  | SchedEffect.apiFail _ _ => true
  | _ => false

/-- `main.process_task_with_retry`, given the outcome of `process_task`:
on success only a completion event is logged (no external effect); on a raised
error, if `attempt < MAX_RETRIES` the task itself is re-queued
(`rpush QUEUE_NAME`) with `attempt + 1` and
`retryAfter = now + min(2**attempt, 60)`, otherwise it is pushed onto the
dead-letter queue (`lpush DEAD_LETTER_QUEUE`). -/
def process_task_with_retry (now : Nat) (task : RTask)
    (outcome : Except String Unit) : List SchedEffect :=
  match outcome with
  | Except.ok _ => []
  | Except.error _ =>
    if task.attempt < MAX_RETRIES then
      [SchedEffect.rpush QUEUE_NAME
        { task with attempt := task.attempt + 1,
                    retryAfter := now + min (2 ^ task.attempt) 60 }]
    else
      [SchedEffect.lpush DEAD_LETTER_QUEUE task]

/-- Kinds of long-lived asyncio tasks `worker_loop` could spawn. -/
inductive SpawnedTask where
  | consumer
  | watchdog
deriving DecidableEq, Repr

/-- The asyncio tasks created by `main.worker_loop`:
`[asyncio.create_task(worker_task(redis_client)) for _ in range(WORKER_CONCURRENCY)]`
— consumer tasks only. -/
def worker_loop_tasks (concurrency : Nat) : List SpawnedTask :=
  List.replicate concurrency SpawnedTask.consumer

/-! ## db.py -/

/-- A row of the `task_queue` table (the columns touched by the embedded
queries). -/
structure QueueTask where
  status : String
  attempt : Nat
  run_after : Nat
  lease_expires_at : Option Nat
  leased_by : Option String
deriving DecidableEq, Repr

/-- The `WHERE` clause of `recover_stale_leases`:
`status = 'processing' AND lease_expires_at IS NOT NULL AND lease_expires_at < now()`. -/
def staleLease (now : Nat) (t : QueueTask) : Bool :=
  t.status = "processing" &&
    (match t.lease_expires_at with
     | some l => decide (l < now)
     | none => false)

/-- The `SET` clause of `recover_stale_leases`: back to `pending`, lease
cleared, `run_after = now()`. -/
def recoverRow (now : Nat) (t : QueueTask) : QueueTask :=
  { t with status := "pending", lease_expires_at := none, leased_by := none,
           run_after := now }

/-- `db.recover_stale_leases` over a table of rows: update every stale
`processing` row, and return the updated table with the affected-row count. -/
def recover_stale_leases (now : Nat) (table : List QueueTask) :
    List QueueTask × Nat :=
  (table.map (fun t => if staleLease now t then recoverRow now t else t),
   (table.filter (fun t => staleLease now t)).length)

/-- Outcome of `db.fail_task` on the task row. -/
inductive FailOutcome where
  | retryPending (newAttempt : Nat) (backoffSeconds : Nat)
  | dead
deriving DecidableEq, Repr

/-- `db.fail_task`: if `attempt < max_attempts` the row is reset to `pending`
with `attempt + 1` and `run_after = now() + min(2**attempt, 60)` seconds;
otherwise it is marked `dead`. -/
def fail_task (attempt : Nat) (maxAttempts : Nat) : FailOutcome :=
  if attempt < maxAttempts then
    FailOutcome.retryPending (attempt + 1) (min (2 ^ attempt) 60)
  else
    FailOutcome.dead

/-! ## adapters/ollama.py -/

/-- A JSON value (what `json.loads` can yield). -/
inductive JVal where
  | str (s : String)
  | num (n : Int)
  | bool (b : Bool)
  | null
  | arr (elems : List JVal)
  | obj (fields : List (String × JVal))

/-- Outcome of one iteration of the `_generate_structured` retry loop:
the parsed dict, a `json.JSONDecodeError`, any other exception (HTTP error,
timeout), or valid JSON that is not a dict (no early return, loop continues). -/
inductive GenAttempt where
  | ok (d : List (String × JVal))
  | parseErr
  | otherErr
  | nonDict

/-- `ollama._empty_response_for_schema`: for every property in
`schema["properties"]` (here: property name paired with its `"type"` field),
arrays map to `[]`, strings to `""`, objects to `{}`; properties of any other
type are omitted. -/
def empty_response_for_schema (props : List (String × String)) :
    List (String × JVal) :=
  props.filterMap (fun kp =>
    if kp.2 = "array" then some (kp.1, JVal.arr [])
    else if kp.2 = "string" then some (kp.1, JVal.str "")
    else if kp.2 = "object" then some (kp.1, JVal.obj [])
    else none)

/-- The `for attempt in range(max_retries)` loop of
`ollama._generate_structured`: a parsed dict returns immediately; a parse
error or other exception on the last attempt (`attempt == max_retries - 1`)
returns the schema-shaped empty object, otherwise the loop continues; a
non-dict JSON value just continues; falling off the loop returns the
schema-shaped empty object. -/
def generate_structured (props : List (String × String))
    (outcome : Nat → GenAttempt) (maxRetries : Nat) (attempt : Nat) :
    List (String × JVal) :=
  if _h : attempt < maxRetries then
    match outcome attempt with
    | GenAttempt.ok d => d
    | GenAttempt.parseErr =>
      if attempt = maxRetries - 1 then empty_response_for_schema props
      else generate_structured props outcome maxRetries (attempt + 1)
    | GenAttempt.otherErr =>
      if attempt = maxRetries - 1 then empty_response_for_schema props
      else generate_structured props outcome maxRetries (attempt + 1)
    | GenAttempt.nonDict => generate_structured props outcome maxRetries (attempt + 1)
  else empty_response_for_schema props
termination_by maxRetries - attempt
decreasing_by all_goals omega

/-! ## Helper lemmas -/

/-- If every character of `s` is Python whitespace, `s.strip()` is empty. -/
theorem pyStrip_eq_empty {s : String} (h : ∀ c ∈ s.toList, isPySpace c = true) :
    pyStrip s = "" := by
  unfold pyStrip
  have h1 : s.toList.dropWhile (fun c => isPySpace c) = [] :=
    List.dropWhile_eq_nil_iff.mpr h
  rw [h1]
  rfl

/-- `replaceNewlines` maps whitespace-only strings to whitespace-only strings. -/
theorem replaceNewlines_all_space {s : String} (h : ∀ c ∈ s.toList, isPySpace c = true) :
    ∀ c ∈ (replaceNewlines s).toList, isPySpace c = true := by
  unfold replaceNewlines
  intro c hc
  simp only [String.toList] at hc ⊢
  change c ∈ s.data.map _ at hc
  rcases List.mem_map.mp hc with ⟨c0, hc0, hmap⟩
  have hc0w : isPySpace c0 = true := h c0 hc0
  by_cases hnl : c0 = '\n'
  · subst hmap; simp [hnl, isPySpace]
  · subst hmap; simpa [hnl] using hc0w

theorem retrievedTextOf_ne_empty {points : List Point} {key : String} {t : String}
    (h : retrievedTextOf points key = some t) : t ≠ "" := by
  induction points with
  | nil => simp [retrievedTextOf] at h
  | cons p ps ih =>
    rw [retrievedTextOf] at h
    rcases hps : retrievedTextOf ps key with _ | t'
    · rw [hps] at h
      simp only at h
      split at h
      · rename_i hcond
        cases h
        exact hcond.2
      · cases h
    · rw [hps] at h
      simp only at h
      cases h
      exact ih hps

/-- The `id_to_text` dict built by a left fold agrees with the last matching
non-empty-text point, falling back to the initial map. -/
theorem foldl_idToTextInsert (points : List Point) (m : String → Option String)
    (key : String) (hkey : key ≠ "") :
    points.foldl idToTextInsert m key =
      (match retrievedTextOf points key with
       | some t => some t
       | none => m key) := by
  induction points generalizing m with
  | nil => rfl
  | cons p ps ih =>
    rw [List.foldl_cons, ih]
    rw [retrievedTextOf]
    rcases hps : retrievedTextOf ps key with _ | t
    · simp only
      unfold idToTextInsert
      by_cases h1 : p.text ≠ "" ∧ p.id ≠ ""
      · rw [if_pos h1]
        by_cases h2 : key = p.id
        · rw [if_pos h2, if_pos ⟨h2.symm, h1.1⟩]
        · rw [if_neg h2, if_neg (fun hc => h2 hc.1.symm)]
      · rw [if_neg h1]
        have : ¬(p.id = key ∧ p.text ≠ "") := by
          intro hc
          exact h1 ⟨hc.2, hc.1 ▸ hkey⟩
        rw [if_neg this]
    · simp only

theorem chunkId_ne_empty (baseId : String) (i : Nat) : chunkId baseId i ≠ "" := by
  unfold chunkId
  intro h
  have hlen := congrArg String.length h
  rw [String.length_append, String.length_append] at hlen
  have h1 : (":" : String).length = 1 := rfl
  have h0 : ("" : String).length = 0 := rfl
  rw [h1, h0] at hlen
  omega

/-! ## Claims -/

/-- C3: tier-3 document-level extraction runs if and only if
`chunkIndex == totalChunks - 1`, and tier-2 always runs. -/
theorem C3_tier3_iff_last_chunk (task : Task) (nlpOut : Except String NlpResult)
    (langOut : Except String String) (retrieveOut : Except String (List Point))
    (metaOut : String → Except String Tier3Meta)
    (entOut : String → Except String EntityResult) (graphOut : Except String Unit) :
    (Event.tier3Run ∈
        (process_task task nlpOut langOut retrieveOut metaOut entOut graphOut).1 ↔
      task.chunkIndex = task.totalChunks - 1) ∧
    Event.tier2Write (run_tier2_extraction nlpOut langOut) ∈
      (process_task task nlpOut langOut retrieveOut metaOut entOut graphOut).1 := by
  unfold process_task process_task_try
  by_cases h : task.chunkIndex = task.totalChunks - 1
  · rw [if_pos h]
    rcases run_document_level_extraction task.baseId task.docType task.totalChunks.toNat
        retrieveOut metaOut entOut graphOut with _ | e <;>
      simp [h]
  · rw [if_neg h]
    simp [h]

/-- C3 witness: with `totalChunks == 1` the single chunk at index `0` is the
last chunk and tier-3 runs. -/
theorem C3_witness :
    Event.tier3Run ∈
      (process_task ⟨"D", "docs", "text", "body", 0, 1, "D:0", ""⟩
        (Except.ok ⟨[], []⟩) (Except.ok "en") (Except.ok [])
        (fun _ => Except.ok ([] : Tier3Meta)) (fun _ => Except.ok ⟨[], []⟩)
        (Except.ok ())).1 :=
  (C3_tier3_iff_last_chunk ⟨"D", "docs", "text", "body", 0, 1, "D:0", ""⟩
    (Except.ok ⟨[], []⟩) (Except.ok "en") (Except.ok [])
    (fun _ => Except.ok ([] : Tier3Meta)) (fun _ => Except.ok ⟨[], []⟩)
    (Except.ok ())).1.mpr (by decide)

/-- C4: tier-2 is total — for any pair of subtask outcomes it returns a
well-formed `{entities, keywords, language}` object; a failed subtask is
replaced by its empty default (`[]`/`[]` or `"unknown"`) while the other
subtask's result is kept. -/
theorem C4_tier2_totality_and_defaults (e e' : String) (r : NlpResult) (lang : String) :
    run_tier2_extraction (Except.error e) (Except.ok lang) =
      { entities := [], keywords := [], language := lang } ∧
    run_tier2_extraction (Except.ok r) (Except.error e) =
      { entities := r.entities, keywords := r.keywords, language := "unknown" } ∧
    run_tier2_extraction (Except.error e) (Except.error e') =
      { entities := [], keywords := [], language := "unknown" } ∧
    run_tier2_extraction (Except.ok r) (Except.ok lang) =
      { entities := r.entities, keywords := r.keywords, language := lang } :=
  ⟨rfl, rfl, rfl, rfl⟩

/-- C9: on empty or whitespace-only input, `process_text_nlp` returns the
empty defaults without invoking the spaCy pipeline, `detect_language` returns
`"unknown"` without invoking the detector, and the combined tier-2 result is
exactly `{"entities": [], "keywords": [], "language": "unknown"}`. -/
theorem C9_whitespace_only_defaults (nlp : String → NlpResult)
    (det : String → Except String String) (text : String)
    (h : ∀ c ∈ text.toList, isPySpace c = true) :
    process_text_nlp nlp text = ({ entities := [], keywords := [] }, false) ∧
    detect_language det text = ("unknown", false) ∧
    run_tier2_extraction (Except.ok (process_text_nlp nlp text).1)
        (Except.ok (detect_language det text).1) =
      { entities := [], keywords := [], language := "unknown" } := by
  have hstrip : pyStrip text = "" := pyStrip_eq_empty h
  have hstrip2 : pyStrip (replaceNewlines text) = "" :=
    pyStrip_eq_empty (replaceNewlines_all_space h)
  refine ⟨?_, ?_, ?_⟩
  · unfold process_text_nlp
    rw [hstrip]
    simp
  · unfold detect_language
    rw [hstrip2]
    simp
  · unfold process_text_nlp detect_language
    rw [hstrip, hstrip2]
    simp [run_tier2_extraction]

/-- C9 witness: the concrete whitespace-only input `"  \n\t "`. -/
theorem C9_witness :
    process_text_nlp (fun _ => { entities := [⟨"x", "ORG"⟩], keywords := ["x"] })
        "  \n\t " = ({ entities := [], keywords := [] }, false) ∧
    detect_language (fun _ => Except.ok "en") "  \n\t " = ("unknown", false) :=
  ⟨(C9_whitespace_only_defaults (fun _ => { entities := [⟨"x", "ORG"⟩], keywords := ["x"] })
      (fun _ => Except.ok "en") "  \n\t " (by decide)).1,
   (C9_whitespace_only_defaults (fun _ => { entities := [⟨"x", "ORG"⟩], keywords := ["x"] })
      (fun _ => Except.ok "en") "  \n\t " (by decide)).2.1⟩

/-- C10: `process_task` writes `enrichmentStatus = "processing"` first; on a
normal return the status writes are exactly `["processing", "enriched"]`; on a
raised error they are exactly `["processing", "failed"]` (written before
re-raising); the final status write is never `"processing"`; and
`update_enrichment_status` swallows its own write errors. -/
theorem C10_status_lifecycle (task : Task) (nlpOut : Except String NlpResult)
    (langOut : Except String String) (retrieveOut : Except String (List Point))
    (metaOut : String → Except String Tier3Meta)
    (entOut : String → Except String EntityResult) (graphOut : Except String Unit) :
    (statusWrites (process_task task nlpOut langOut retrieveOut metaOut entOut
        graphOut).1).head? = some "processing" ∧
    ((process_task task nlpOut langOut retrieveOut metaOut entOut graphOut).2 =
        Except.ok () →
      statusWrites (process_task task nlpOut langOut retrieveOut metaOut entOut
        graphOut).1 = ["processing", "enriched"]) ∧
    (∀ e, (process_task task nlpOut langOut retrieveOut metaOut entOut graphOut).2 =
        Except.error e →
      statusWrites (process_task task nlpOut langOut retrieveOut metaOut entOut
        graphOut).1 = ["processing", "failed"]) ∧
    (statusWrites (process_task task nlpOut langOut retrieveOut metaOut entOut
        graphOut).1).getLast? ≠ some "processing" ∧
    (∀ o, update_enrichment_status o = Except.ok ()) := by
  unfold process_task process_task_try
  by_cases h : task.chunkIndex = task.totalChunks - 1
  · rw [if_pos h]
    rcases run_document_level_extraction task.baseId task.docType task.totalChunks.toNat
        retrieveOut metaOut entOut graphOut with _ | e <;>
      refine ⟨by simp [statusWrites], by simp [statusWrites], by simp [statusWrites],
        by simp [statusWrites], fun o => by rcases o with _ | e' <;> rfl⟩
  · rw [if_neg h]
    refine ⟨by simp [statusWrites], by simp [statusWrites], by simp [statusWrites],
      by simp [statusWrites], fun o => by rcases o with _ | e' <;> rfl⟩

/-- C10 witness: a successful non-final chunk yields status writes
`["processing", "enriched"]`; a failing tier-3 on the final chunk yields
`["processing", "failed"]`. -/
theorem C10_witness :
    statusWrites (process_task ⟨"D", "docs", "text", "body", 0, 2, "D:0", ""⟩
        (Except.ok ⟨[], []⟩) (Except.ok "en") (Except.ok [])
        (fun _ => Except.ok ([] : Tier3Meta)) (fun _ => Except.ok ⟨[], []⟩)
        (Except.ok ())).1 = ["processing", "enriched"] ∧
    statusWrites (process_task ⟨"D", "docs", "text", "body", 1, 2, "D:1", ""⟩
        (Except.ok ⟨[], []⟩) (Except.ok "en") (Except.ok [])
        (fun _ => Except.error "llm down") (fun _ => Except.ok ⟨[], []⟩)
        (Except.ok ())).1 = ["processing", "failed"] :=
  ⟨(C10_status_lifecycle ⟨"D", "docs", "text", "body", 0, 2, "D:0", ""⟩
      (Except.ok ⟨[], []⟩) (Except.ok "en") (Except.ok [])
      (fun _ => Except.ok ([] : Tier3Meta)) (fun _ => Except.ok ⟨[], []⟩)
      (Except.ok ())).2.1 rfl,
   (C10_status_lifecycle ⟨"D", "docs", "text", "body", 1, 2, "D:1", ""⟩
      (Except.ok ⟨[], []⟩) (Except.ok "en") (Except.ok [])
      (fun _ => Except.error "llm down") (fun _ => Except.ok ⟨[], []⟩)
      (Except.ok ())).2.2.1 "llm down" rfl⟩

/-- C8: in store-backed mode, the aggregated `fullText` equals the
concatenation of all retrieved chunk texts ordered by ascending `chunkIndex`
and joined by `"\n\n"`, with empty or missing chunks skipped from the join
without shifting the relative order of the remaining chunks
(`fullTextSpec` is that spec-side description). -/
theorem C8_fulltext_matches_spec (baseId : String) (points : List Point) (total : Nat) :
    aggregate_chunks baseId (Except.ok points) total = fullTextSpec baseId points total := by
  unfold aggregate_chunks fullTextSpec aggregate_texts
  refine congrArg (String.intercalate "\n\n") (List.filterMap_congr ?_)
  intro i _hi
  have hkey := chunkId_ne_empty baseId i
  unfold buildIdToText
  rw [foldl_idToTextInsert points _ _ hkey]
  rcases hr : retrievedTextOf points (chunkId baseId i) with _ | t
  · simp
  · have hne := retrievedTextOf_ne_empty hr
    simp [hne]

/-- C1 counterexample: for the concrete failing task `T1` (attempt 1), the
scheduler re-queues the task in-process on the Redis queue with an incremented
attempt and a backoff — it does not call `fail(taskId, errorMessage)`. -/
theorem C1_counterexample :
    process_task_with_retry 100 ⟨"T1", 1, 0⟩ (Except.error "boom") =
      [SchedEffect.rpush QUEUE_NAME ⟨"T1", 2, 102⟩] ∧
    SchedEffect.apiFail "T1" "boom" ∉
      process_task_with_retry 100 ⟨"T1", 1, 0⟩ (Except.error "boom") := by
  constructor
  · rfl
  · decide

/-- C1 (amended): on any raised error the scheduler itself applies the
retry-versus-dead-letter policy in-process — re-queue with `attempt + 1` and
`retryAfter = now + min(2**attempt, 60)` while `attempt < MAX_RETRIES`, else
push to the dead-letter queue — and it never issues a control-API
`fail(taskId, errorMessage)` call. -/
theorem C1_amended_in_process_retry (now : Nat) (task : RTask)
    (outcome : Except String Unit) (e : String) :
    process_task_with_retry now task (Except.error e) =
      (if task.attempt < MAX_RETRIES then
        [SchedEffect.rpush QUEUE_NAME
          { task with attempt := task.attempt + 1,
                      retryAfter := now + min (2 ^ task.attempt) 60 }]
       else [SchedEffect.lpush DEAD_LETTER_QUEUE task]) ∧
    (process_task_with_retry now task outcome).all
      (fun eff => ! eff.isApiFail) = true ∧
    process_task_with_retry now task (Except.ok ()) = [] := by
  refine ⟨rfl, ?_, rfl⟩
  rcases outcome with e' | _
  · unfold process_task_with_retry
    by_cases h : task.attempt < MAX_RETRIES
    · rw [if_pos h]
      rfl
    · rw [if_neg h]
      rfl
  · rfl

/-- C2 counterexample: with the default concurrency 4, `worker_loop` spawns
no watchdog task at all. -/
theorem C2_counterexample : SpawnedTask.watchdog ∉ worker_loop_tasks 4 := by
  decide

/-- C2 (amended): `worker_loop` launches exactly `N` long-lived consumer tasks
and no watchdog; the stale-lease recovery routine `recover_stale_leases`
exists (unused by the worker loop) and resets every `processing` row whose
lease has expired back to `pending` with `run_after = now()` and a cleared
lease owner, leaving other rows unchanged and returning the recovered count. -/
theorem C2_amended_no_watchdog (n : Nat) (now : Nat) (table : List QueueTask) :
    (worker_loop_tasks n).length = n ∧
    (∀ s ∈ worker_loop_tasks n, s = SpawnedTask.consumer) ∧
    SpawnedTask.watchdog ∉ worker_loop_tasks n ∧
    (∀ t ∈ table, staleLease now t = true →
      recoverRow now t ∈ (recover_stale_leases now table).1) ∧
    (∀ t ∈ table, staleLease now t = false →
      t ∈ (recover_stale_leases now table).1) ∧
    (∀ t ∈ (recover_stale_leases now table).1, staleLease now t = false) ∧
    (recover_stale_leases now table).2 =
      (table.filter (fun t => staleLease now t)).length ∧
    (∀ t : QueueTask, (recoverRow now t).status = "pending" ∧
      (recoverRow now t).run_after = now ∧
      (recoverRow now t).lease_expires_at = none ∧
      (recoverRow now t).leased_by = none) := by
  refine ⟨List.length_replicate n _, fun s hs => List.eq_of_mem_replicate hs, ?_,
    ?_, ?_, ?_, rfl, fun t => ⟨rfl, rfl, rfl, rfl⟩⟩
  · intro hmem
    cases List.eq_of_mem_replicate hmem
  · intro t ht hs
    exact List.mem_map.mpr ⟨t, ht, by rw [if_pos hs]⟩
  · intro t ht hs
    refine List.mem_map.mpr ⟨t, ht, ?_⟩
    rw [hs]
    rfl
  · intro t' ht'
    rcases List.mem_map.mp ht' with ⟨t, _ht, heq⟩
    rcases hs : staleLease now t with _ | _
    · rw [hs] at heq
      simp at heq
      subst heq
      exact hs
    · rw [hs, if_pos rfl] at heq
      rw [← heq]
      unfold staleLease recoverRow
      simp

/-- C2 witness: at `now = 100`, a `processing` row with lease expired at 50 is
reset, and the recovered count over a two-row table with one stale row is 1. -/
theorem C2_witness :
    recoverRow 100 ⟨"processing", 1, 0, some 50, some "w1"⟩ ∈
      (recover_stale_leases 100
        [⟨"processing", 1, 0, some 50, some "w1"⟩, ⟨"pending", 1, 0, none, none⟩]).1 ∧
    (recover_stale_leases 100
      [⟨"processing", 1, 0, some 50, some "w1"⟩, ⟨"pending", 1, 0, none, none⟩]).2 = 1 :=
  ⟨(C2_amended_no_watchdog 4 100
      [⟨"processing", 1, 0, some 50, some "w1"⟩, ⟨"pending", 1, 0, none, none⟩]).2.2.2.1
      ⟨"processing", 1, 0, some 50, some "w1"⟩ (by decide) (by decide),
   ((C2_amended_no_watchdog 4 100
      [⟨"processing", 1, 0, some 50, some "w1"⟩, ⟨"pending", 1, 0, none, none⟩]).2.2.2.2.2.2.1).trans
      (by decide)⟩

/-- C5 counterexample: a failed chunk lookup (`qdrant.retrieve` raising) is
caught inside `aggregate_chunks`, which returns `""`; tier-3 proceeds and
`process_task` on the final chunk completes successfully — the task is not
failed. -/
theorem C5_counterexample :
    aggregate_chunks "D" (Except.error "connection refused") 3 = "" ∧
    run_document_level_extraction "D" "text" 3 (Except.error "connection refused")
      (fun _ => Except.ok ([] : Tier3Meta)) (fun _ => Except.ok ⟨[], []⟩)
      (Except.ok ()) = Except.ok () ∧
    (process_task ⟨"D", "docs", "text", "body", 2, 3, "D:2", ""⟩
      (Except.ok ⟨[], []⟩) (Except.ok "en") (Except.error "connection refused")
      (fun _ => Except.ok ([] : Tier3Meta)) (fun _ => Except.ok ⟨[], []⟩)
      (Except.ok ())).2 = Except.ok () :=
  ⟨rfl, rfl, rfl⟩

/-- C5 (amended): exceptions raised by the adapter calls during tier-3
orchestration propagate out of `run_document_level_extraction` and out of
`process_task` (the task is failed); but a failure to look up the document's
chunk bodies is caught inside `aggregate_chunks`, absorbed as an empty
`fullText`, and tier-3 then completes normally. -/
theorem C5_amended_lookup_failure_absorbed (baseId docType : String) (total : Nat)
    (retrieveOut : Except String (List Point))
    (metaOut : String → Except String Tier3Meta)
    (entOut : String → Except String EntityResult)
    (graphOut : Except String Unit) :
    (∀ e, metaOut (aggregate_chunks baseId retrieveOut total) = Except.error e →
      run_document_level_extraction baseId docType total retrieveOut metaOut entOut
        graphOut = Except.error e) ∧
    (∀ e m, metaOut (aggregate_chunks baseId retrieveOut total) = Except.ok m →
      entOut (aggregate_chunks baseId retrieveOut total) = Except.error e →
      run_document_level_extraction baseId docType total retrieveOut metaOut entOut
        graphOut = Except.error e) ∧
    (∀ err, aggregate_chunks baseId (Except.error err) total = "") ∧
    (∀ err m ent, metaOut "" = Except.ok m → entOut "" = Except.ok ent →
      run_document_level_extraction baseId docType total (Except.error err) metaOut
        entOut graphOut = Except.ok ()) ∧
    (∀ (task : Task) (nlpOut : Except String NlpResult)
        (langOut : Except String String) (e : String),
      task.chunkIndex = task.totalChunks - 1 →
      run_document_level_extraction task.baseId task.docType task.totalChunks.toNat
        retrieveOut metaOut entOut graphOut = Except.error e →
      (process_task task nlpOut langOut retrieveOut metaOut entOut graphOut).2 =
        Except.error e) := by
  refine ⟨?_, ?_, fun err => rfl, ?_, ?_⟩
  · intro e hmeta
    simp only [run_document_level_extraction]
    rw [hmeta]
  · intro e m hmeta hent
    simp only [run_document_level_extraction]
    rw [hmeta, hent]
  · intro err m ent hmeta hent
    simp only [run_document_level_extraction]
    have hagg : aggregate_chunks baseId (Except.error err) total = "" := rfl
    rw [hagg, hmeta, hent]
    rcases graphOut with _ | ge <;> rfl
  · intro task nlpOut langOut e hchunk hrdle
    unfold process_task process_task_try
    rw [if_pos hchunk, hrdle]

/-- C5 witness: a concrete adapter failure during tier-3 propagates. -/
theorem C5_witness :
    run_document_level_extraction "D" "text" 2 (Except.ok [])
      (fun _ => Except.error "llm down") (fun _ => Except.ok ⟨[], []⟩)
      (Except.ok ()) = Except.error "llm down" ∧
    run_document_level_extraction "D" "text" 2 (Except.error "db down")
      (fun _ => Except.ok ([] : Tier3Meta)) (fun _ => Except.ok ⟨[], []⟩)
      (Except.ok ()) = Except.ok () :=
  ⟨(C5_amended_lookup_failure_absorbed "D" "text" 2 (Except.ok [])
      (fun _ => Except.error "llm down") (fun _ => Except.ok ⟨[], []⟩)
      (Except.ok ())).1 "llm down" rfl,
   (C5_amended_lookup_failure_absorbed "D" "text" 2 (Except.error "db down")
      (fun _ => Except.ok ([] : Tier3Meta)) (fun _ => Except.ok ⟨[], []⟩)
      (Except.ok ())).2.2.2.1 "db down" [] ⟨[], []⟩ rfl rfl⟩

/-- C6: a failure with `attempt < MAX_RETRIES` (3) re-queues the task with
`attempt + 1` and a delay of exactly `min(2**attempt, 60)` seconds (the
formula yields 2, 4, 8, 16, 32, 60 for attempts 1..6), both in the Redis
scheduler (`main.process_task_with_retry`) and in the Postgres policy
(`db.fail_task`); with `attempt >= MAX_RETRIES` the task moves to the terminal
dead state (dead-letter queue / `dead` status) instead. -/
theorem C6_retry_backoff_policy (attempt : Nat) (now : Nat) (task : RTask) (e : String) :
    (attempt < MAX_RETRIES →
      fail_task attempt MAX_RETRIES =
        FailOutcome.retryPending (attempt + 1) (min (2 ^ attempt) 60)) ∧
    (MAX_RETRIES ≤ attempt → fail_task attempt MAX_RETRIES = FailOutcome.dead) ∧
    (task.attempt < MAX_RETRIES →
      process_task_with_retry now task (Except.error e) =
        [SchedEffect.rpush QUEUE_NAME
          { task with attempt := task.attempt + 1,
                      retryAfter := now + min (2 ^ task.attempt) 60 }]) ∧
    (MAX_RETRIES ≤ task.attempt →
      process_task_with_retry now task (Except.error e) =
        [SchedEffect.lpush DEAD_LETTER_QUEUE task]) ∧
    (List.range 6).map (fun k => min (2 ^ (k + 1)) 60) = [2, 4, 8, 16, 32, 60] := by
  refine ⟨?_, ?_, ?_, ?_, by decide⟩
  · intro h
    unfold fail_task
    rw [if_pos h]
  · intro h
    unfold fail_task
    rw [if_neg (by omega)]
  · intro h
    unfold process_task_with_retry
    rw [if_pos h]
  · intro h
    unfold process_task_with_retry
    rw [if_neg (by omega)]

/-- C6 witness: attempt 1 retries with a 2-second delay; attempt 3 is dead. -/
theorem C6_witness :
    fail_task 1 MAX_RETRIES = FailOutcome.retryPending 2 2 ∧
    fail_task 3 MAX_RETRIES = FailOutcome.dead ∧
    process_task_with_retry 100 ⟨"T6", 2, 0⟩ (Except.error "x") =
      [SchedEffect.rpush QUEUE_NAME ⟨"T6", 3, 104⟩] ∧
    process_task_with_retry 100 ⟨"T7", 3, 0⟩ (Except.error "x") =
      [SchedEffect.lpush DEAD_LETTER_QUEUE ⟨"T7", 3, 0⟩] :=
  ⟨(C6_retry_backoff_policy 1 100 ⟨"T6", 2, 0⟩ "x").1 (by decide),
   (C6_retry_backoff_policy 3 100 ⟨"T6", 2, 0⟩ "x").2.1 (by decide),
   (C6_retry_backoff_policy 1 100 ⟨"T6", 2, 0⟩ "x").2.2.1 (by decide),
   (C6_retry_backoff_policy 1 100 ⟨"T7", 3, 0⟩ "x").2.2.2.1 (by decide)⟩

/-- Unfolding the retry loop when all attempts are used up. -/
theorem generate_structured_stop (props : List (String × String))
    (outcome : Nat → GenAttempt) (maxRetries attempt : Nat)
    (h : ¬ attempt < maxRetries) :
    generate_structured props outcome maxRetries attempt =
      empty_response_for_schema props := by
  unfold generate_structured
  rw [dif_neg h]

/-- Unfolding one iteration of the retry loop. -/
theorem generate_structured_step (props : List (String × String))
    (outcome : Nat → GenAttempt) (maxRetries attempt : Nat)
    (h : attempt < maxRetries) :
    generate_structured props outcome maxRetries attempt =
      (match outcome attempt with
       | GenAttempt.ok d => d
       | GenAttempt.parseErr =>
         if attempt = maxRetries - 1 then empty_response_for_schema props
         else generate_structured props outcome maxRetries (attempt + 1)
       | GenAttempt.otherErr =>
         if attempt = maxRetries - 1 then empty_response_for_schema props
         else generate_structured props outcome maxRetries (attempt + 1)
       | GenAttempt.nonDict =>
         generate_structured props outcome maxRetries (attempt + 1)) := by
  conv_lhs => unfold generate_structured
  rw [dif_pos h]

/-- If every remaining attempt fails to produce a parsed dict, the loop
returns the schema-shaped empty object. -/
theorem generate_structured_all_fail (props : List (String × String))
    (outcome : Nat → GenAttempt) (maxRetries : Nat) :
    ∀ fuel attempt, maxRetries - attempt ≤ fuel →
      (∀ i, attempt ≤ i → i < maxRetries → ∀ d, outcome i ≠ GenAttempt.ok d) →
      generate_structured props outcome maxRetries attempt =
        empty_response_for_schema props := by
  intro fuel
  induction fuel with
  | zero =>
    intro attempt hle _hfail
    exact generate_structured_stop props outcome maxRetries attempt (by omega)
  | succ n ih =>
    intro attempt hle hfail
    by_cases h : attempt < maxRetries
    · rw [generate_structured_step props outcome maxRetries attempt h]
      rcases ho : outcome attempt with d | _ | _ | _
      · exact (hfail attempt le_rfl h d ho).elim
      · by_cases hlast : attempt = maxRetries - 1
        · rw [if_pos hlast]
        · rw [if_neg hlast]
          exact ih (attempt + 1) (by omega) (fun i h1 h2 d => hfail i (by omega) h2 d)
      · by_cases hlast : attempt = maxRetries - 1
        · rw [if_pos hlast]
        · rw [if_neg hlast]
          exact ih (attempt + 1) (by omega) (fun i h1 h2 d => hfail i (by omega) h2 d)
      · exact ih (attempt + 1) (by omega) (fun i h1 h2 d => hfail i (by omega) h2 d)
    · exact generate_structured_stop props outcome maxRetries attempt h

/-- C7: the structured-output loop applies at most 3 attempts (the result
depends only on the outcomes of attempts 0..2); when all 3 attempts fail it
returns (never raises) the schema-shaped empty object, which contains `""`
for every string-typed property, `[]` for every array-typed property, and
`{}` for every object-typed property declared in the schema. -/
theorem C7_retry_and_empty_shape (props : List (String × String))
    (outcome : Nat → GenAttempt)
    (hfail : ∀ i, i < 3 → ∀ d, outcome i ≠ GenAttempt.ok d) :
    generate_structured props outcome 3 0 = empty_response_for_schema props ∧
    (∀ outcome' : Nat → GenAttempt, (∀ i, i < 3 → outcome' i = outcome i) →
      generate_structured props outcome' 3 0 = generate_structured props outcome 3 0) ∧
    (∀ k, (k, "string") ∈ props →
      (k, JVal.str "") ∈ empty_response_for_schema props) ∧
    (∀ k, (k, "array") ∈ props →
      (k, JVal.arr []) ∈ empty_response_for_schema props) ∧
    (∀ k, (k, "object") ∈ props →
      (k, JVal.obj []) ∈ empty_response_for_schema props) := by
  have hmain : generate_structured props outcome 3 0 = empty_response_for_schema props :=
    generate_structured_all_fail props outcome 3 3 0 (by omega)
      (fun i _ hi d => hfail i hi d)
  refine ⟨hmain, ?_, ?_, ?_, ?_⟩
  · intro outcome' hagree
    rw [hmain]
    exact generate_structured_all_fail props outcome' 3 3 0 (by omega)
      (fun i _ hi d => hagree i hi ▸ hfail i hi d)
  · intro k hk
    exact List.mem_filterMap.mpr ⟨(k, "string"), hk, rfl⟩
  · intro k hk
    exact List.mem_filterMap.mpr ⟨(k, "array"), hk, rfl⟩
  · intro k hk
    exact List.mem_filterMap.mpr ⟨(k, "object"), hk, rfl⟩

/-- C7 witness: three parse failures on a concrete schema yield the
schema-shaped empty object. -/
theorem C7_witness :
    generate_structured [("title", "string"), ("tags", "array"), ("meta", "object")]
      (fun _ => GenAttempt.parseErr) 3 0 =
      [("title", JVal.str ""), ("tags", JVal.arr []), ("meta", JVal.obj [])] :=
  ((C7_retry_and_empty_shape
    [("title", "string"), ("tags", "array"), ("meta", "object")]
    (fun _ => GenAttempt.parseErr) (fun _i _hi _d h => nomatch h)).1).trans rfl

end Enrichment
